import Mathlib

/-!
# Verification of the pysmartnode climate controller and battery monitor

Shallow embedding of `pysmartnode/components/devices/climate/__init__.py`
(class `Climate`) and `pysmartnode/components/sensors/battery.py`
(class `Battery`), with theorems settling the specification claims.

Temperatures and voltages are embedded as rationals (`ℚ`): every comparison
in the source is an exact order comparison, no floating-point rounding is
involved in any claim.

Python exceptions are modelled explicitly: a handler returns both the final
object state (mutations performed before a `raise` persist, as they do on a
Python object) and an outcome that is either a returned value or a raised
exception.
-/

namespace Pysmartnode

/-- The Python exceptions raised by the embedded code. -/
inductive PyError
  | valueError
  | typeError
  | attributeError
  | keyError
deriving DecidableEq

/-- Outcome of an async command handler: either a returned value
(`True`/`False`, whether the message should be echoed) or a raised
exception. -/
inductive HandlerOutcome
  | ret (publish : Bool)
  | exn (e : PyError)
deriving DecidableEq

/-- Modelled from the spec: the state-dictionary of `Climate.__init__`
(lines 159-167).  The keys (`CURRENT_TEMPERATURE_HIGH`, ...) come from
`climate/definitions.py`, which is not part of the snapshot; the spec's
data model (§3) names the same fields.  `AWAY_ON`/`AWAY_OFF` are embedded
as `true`/`false` since the source only ever compares them for equality. -/
structure ClimateState where
  currentTempHigh : ℚ
  currentTempLow : ℚ
  awayMode : Bool
  storageAwayTempHigh : ℚ
  storageAwayTempLow : ℚ
  storageTempHigh : ℚ
  storageTempLow : ℚ
  currentMode : String
  currentAction : String
deriving DecidableEq

/-- The `Climate` controller object: its state dictionary, the
re-evaluation event (`self.event`, a plain settable/clearable flag —
`pysmartnode/utils/event.py` is not in the snapshot, the flag semantics
is modelled from spec §2/§9), the configured bounds and the keys of the
`self._modes` dictionary. -/
structure Climate where
  state : ClimateState
  eventSet : Bool
  minTemp : ℚ
  maxTemp : ℚ
  modes : List String
deriving DecidableEq

/-- Result of running one command handler on a `Climate` object. -/
structure HandlerResult where
  self : Climate
  outcome : HandlerOutcome
deriving DecidableEq

/-- `MODE_OFF` from `climate/definitions.py` (not in the snapshot): the
source force-appends the literal `"off"` to the mode list and the docstring
lists `"off"` as a mode, so `MODE_OFF = "off"`. -/
def MODE_OFF : String := "off"

/-- `Climate.changeTempHigh` (lines 306-317): reject values above
`max_temp` by raising `ValueError`; otherwise write `current_temp_high`,
the storage slot selected by the away flag, and set the event. -/
def changeTempHigh (c : Climate) (msg : ℚ) : HandlerResult :=
  if msg > c.maxTemp then
    { self := c, outcome := .exn .valueError }
  else
    let s := { c.state with currentTempHigh := msg }
    let s := if s.awayMode then { s with storageAwayTempHigh := msg }
             else { s with storageTempHigh := msg }
    { self := { c with state := s, eventSet := true }, outcome := .ret true }

/-- `Climate.changeTempLow` (lines 319-330): symmetric to
`changeTempHigh`, rejecting values below `min_temp`. -/
def changeTempLow (c : Climate) (msg : ℚ) : HandlerResult :=
  if msg < c.minTemp then
    { self := c, outcome := .exn .valueError }
  else
    let s := { c.state with currentTempLow := msg }
    let s := if s.awayMode then { s with storageAwayTempLow := msg }
             else { s with storageTempLow := msg }
    { self := { c with state := s, eventSet := true }, outcome := .ret true }

/-- Modelled from the spec: the mqtt client (not in the snapshot) exposes
`payload_on` / `payload_off` vocabularies; a message either belongs to the
on-vocabulary, to the off-vocabulary, or to neither.  `changeAwayMode`
branches only on that membership. -/
inductive AwayPayload
  | on
  | off
  | other
deriving DecidableEq

/-- `Climate.changeAwayMode` (lines 264-284): a recognized token matching
the current away state returns `False` without touching anything; a state
change copies the newly selected storage pair into the current setpoints
and sets the event; an unrecognized payload raises `TypeError`. -/
def changeAwayMode (c : Climate) (msg : AwayPayload) : HandlerResult :=
  match msg with
  | .on =>
    if c.state.awayMode = true then
      { self := c, outcome := .ret false }
    else
      let s := { c.state with
                 awayMode := true,
                 currentTempHigh := c.state.storageAwayTempHigh,
                 currentTempLow := c.state.storageAwayTempLow }
      { self := { c with state := s, eventSet := true }, outcome := .ret false }
  | .off =>
    if c.state.awayMode = false then
      { self := c, outcome := .ret false }
    else
      let s := { c.state with
                 awayMode := false,
                 currentTempHigh := c.state.storageTempHigh,
                 currentTempLow := c.state.storageTempLow }
      { self := { c with state := s, eventSet := true }, outcome := .ret false }
  | .other => { self := c, outcome := .exn .typeError }

/-- `Climate.changeMode` (lines 286-304).  The mode strategies are
represented by two oracles giving the boolean result of
`deactivate(self)` on the current mode and of `activate(self)` on the
target mode.  On the activation-failure path the source sets
`current_mode` to `MODE_OFF` and then runs
`self._modes[MODE_OFF].activate()` — without the required `climate`
argument (`BaseMode.activate(self, climate)`, line 97), which raises
`TypeError` before `self.event.set()` is reached. -/
def changeMode (c : Climate) (deact act : String → Bool) (msg : String) :
    HandlerResult :=
  if msg ∉ c.modes then
    { self := c, outcome := .exn .attributeError }
  else if msg = c.state.currentMode then
    { self := c, outcome := .ret false }
  else if deact c.state.currentMode then
    if act msg then
      let s := { c.state with currentMode := msg }
      { self := { c with state := s, eventSet := true }, outcome := .ret false }
    else
      let s := { c.state with currentMode := MODE_OFF }
      { self := { c with state := s }, outcome := .exn .typeError }
  else
    { self := c, outcome := .ret false }

/-- `MODES_SUPPORTED` from `climate/definitions.py`. Modelled from the spec:
`definitions.py` is not in the snapshot; the module docstring says
`modes: ["off","heat"] # all supported modes. cooling, auto and fan not
implemented.` and the spec (§2, §8) names `off` and `heat` as the built-in
modes, so the supported set is `{"off", "heat"}`. -/
def MODES_SUPPORTED : List String := ["off", "heat"]

/-- The mode-filtering loop of `Climate.__init__` (lines 136-157),
embedded with Python's exact `for`-loop semantics: the iterator keeps an
index into the (mutated) list, reading position `idx` on each step.  An
unsupported name is logged and removed (`modes.remove(mode)` deletes the
first occurrence, shifting later elements left — so the element that was
at `idx + 1` is never visited).  A supported name is kept in the list; it
becomes a key of `self._modes` exactly when its import / class lookup /
instantiation succeeds, which the oracle `inst` decides (all three failure
paths are logged and `continue`).  The fuel argument only bounds the
number of iterations: the index grows by one per step while the list never
grows, so `l.length` steps always suffice and the fuel never cuts the loop
short. -/
def modesLoopF (inst : String → Bool) :
    Nat → Nat → List String → List String → List String × List String
  | 0, _, l, acc => (l, acc)
  | fuel + 1, idx, l, acc =>
    if h : idx < l.length then
      let m := l.get ⟨idx, h⟩
      if m ∈ MODES_SUPPORTED then
        if inst m then modesLoopF inst fuel (idx + 1) l (acc ++ [m])
        else modesLoopF inst fuel (idx + 1) l acc
      else
        modesLoopF inst fuel (idx + 1) (l.erase m) acc
    else (l, acc)

/-- Mode processing of `Climate.__init__` (lines 133-157): append `"off"`
when absent, then run the filtering loop.  Returns the final `modes` list
and the keys of `self._modes` in insertion order. -/
def climateInitModes (modes : List String) (inst : String → Bool) :
    List String × List String :=
  let modes := if "off" ∈ modes then modes else modes ++ ["off"]
  modesLoopF inst modes.length 0 modes []

/-- The state dictionary built at `Climate.__init__` lines 159-167.
`CURRENT_MODE` is `str(self._modes["off"])`, and `BaseMode.__str__` is
specified (line 106) to equal the mode's configured name, i.e. `"off"`;
`CURRENT_ACTION` is `ACTION_OFF = "off"`. -/
def defaultState : ClimateState :=
  { currentTempHigh := 22
    currentTempLow := 20
    awayMode := false
    storageAwayTempHigh := 16.5
    storageAwayTempLow := 15.5
    storageTempHigh := 22
    storageTempLow := 20
    currentMode := "off"
    currentAction := "off" }

/-- Result of the constructor's mode processing plus state initialization. -/
inductive InitOutcome
  | ok (modes : List String) (state : ClimateState)
  | exn (e : PyError)
deriving DecidableEq

/-- `Climate.__init__` from the mode loop through the state-dictionary
construction (lines 133-167): the individual mode failures inside the loop
are each caught and logged, but line 166 then evaluates
`str(self._modes["off"])`, which raises `KeyError` whenever `"off"` did not
end up a key of `self._modes`. -/
def climateInit (modes : List String) (inst : String → Bool) : InitOutcome :=
  let keys := (climateInitModes modes inst).2
  if "off" ∈ keys then .ok keys defaultState else .exn .keyError

/-- The recovery poll of `Climate._init_network` (lines 199-203):
`for _ in range(16): if self._network_done: break; await sleep_ms(250)`.
`doneAt k` is the value of `self._network_done` when the flag is inspected
at iteration `k` (it is set concurrently by `Climate._restore`); checkpoint
`16` is the flag's value after the loop.  Returns the number of 250 ms
sleeps performed. -/
def recoveryLoop (doneAt : Nat → Bool) (k : Nat) : Nat → Nat
  | 0 => 0
  | n + 1 => if doneAt k then 0 else 1 + recoveryLoop doneAt (k + 1) n

/-- Result of `Climate._init_network` after the recovery poll. -/
structure NetInitResult where
  sleeps : Nat
  unsubscribed : Bool
  networkDone : Bool
  published : List (String × ℚ × Bool)
  state : ClimateState
deriving DecidableEq

/-- `Climate._init_network` (lines 192-212): poll the recovered flag for at
most 16 intervals of 250 ms; if it is still false afterwards, unsubscribe
from the state topic; set `self._network_done = True` unconditionally; then
publish the current low and high setpoints as retained messages.  The
controller state itself is not touched here. -/
def initNetwork (doneAt : Nat → Bool) (st : ClimateState) : NetInitResult :=
  let sleeps := recoveryLoop doneAt 0 16
  let flag := doneAt sleeps
  { sleeps := sleeps
    unsubscribed := !flag
    networkDone := true
    published := [("temp_low", st.currentTempLow, true),
                  ("temp_high", st.currentTempHigh, true)]
    state := st }

/-- One evaluation-and-publish pass of `Climate._loop` (lines 227-235).
The locked body awaits at the temperature read, the mode trigger and the
state publishes; `during` lists the state transformations performed by
lock-free command handlers (`changeTempHigh` / `changeTempLow`) that the
scheduler runs at those suspension points, in order.  After the body,
`self.event.clear()` runs unconditionally. -/
def loopPass (c : Climate) (during : List (Climate → Climate)) : Climate :=
  let c := during.foldl (fun s f => f s) c
  { c with eventSet := false }

/-! ## Battery threshold monitor (`components/sensors/battery.py`) -/

/-- A value bound by a Python assignment: either a number or the
un-awaited coroutine object that `self._read()` returns when called
without `await`. -/
inductive PyVal
  | num (v : ℚ)
  | coro
deriving DecidableEq

/-- The call `self._read(...)` as it appears in `Battery._loop`
(lines 116 and 119): the coroutine is not awaited, so the bound value is
the coroutine object itself, never a number.  (`Battery.voltage`, line 98,
shows the awaited form, which would yield the sampled number.) -/
def readCall (awaited : Bool) (sample : ℚ) : PyVal :=
  if awaited then .num sample else .coro

/-- Python `>` between a bound value and a number: raises `TypeError` when
the left operand is a coroutine object. -/
def pyGt (a : PyVal) (b : ℚ) : Except PyError Bool :=
  match a with
  | .num v => .ok (decide (b < v))
  | .coro => .error .typeError

/-- Python `<` between a bound value and a number. -/
def pyLt (a : PyVal) (b : ℚ) : Except PyError Bool :=
  match a with
  | .num v => .ok (decide (v < b))
  | .coro => .error .typeError

/-- The `Battery` monitor state: the two optional notification events
(`None` when no consumer registered; `some a` with `a` the armed data,
`none` after `release()`), the static bounds and the optional cutoff pin
level. -/
structure Battery where
  eventLow : Option (Option ℚ)
  eventHigh : Option (Option ℚ)
  voltageMax : ℚ
  voltageMin : ℚ
  cutoffPin : Option Bool
deriving DecidableEq

/-- Outcome of one cycle of `Battery._loop`. -/
structure BatteryCycleResult where
  battery : Battery
  raised : Option PyError
  warned : Bool
deriving DecidableEq

/-- One cycle of the `Battery._loop` body (lines 107-143).  Previously
armed events are released first (lines 110-113).  Then
`voltage = self._read()` / `voltage = self._read(publish=False)` binds the
result of the call — without `await` (lines 116/119), so the comparison
`voltage > self._voltage_max` (line 120) is between a coroutine object and
a number and raises `TypeError`; the mutations already performed (the
releases) persist.  The arming / warning / cutoff logic follows the source
but is only reachable for a numeric `voltage`. -/
def batteryCycle (b : Battery) (sample : ℚ) : BatteryCycleResult :=
  let b := { b with eventLow := b.eventLow.map (fun _ => none),
                    eventHigh := b.eventHigh.map (fun _ => none) }
  let voltage := readCall false sample
  match pyGt voltage b.voltageMax with
  | .error e => { battery := b, raised := some e, warned := false }
  | .ok true =>
    match b.eventHigh with
    | some _ =>
      { battery := { b with eventHigh := some (some sample) },
        raised := none, warned := false }
    | none => { battery := b, raised := none, warned := true }
  | .ok false =>
    match pyLt voltage b.voltageMin with
    | .error e => { battery := b, raised := some e, warned := false }
    | .ok true =>
      let r : BatteryCycleResult :=
        match b.eventLow with
        | some _ =>
          { battery := { b with eventLow := some (some sample) },
            raised := none, warned := false }
        | none => { battery := b, raised := none, warned := true }
      match r.battery.cutoffPin with
      | some _ => { r with battery := { r.battery with cutoffPin := some true } }
      | none => r
    | .ok false => { battery := b, raised := none, warned := false }

/-! ## Invariants under scrutiny -/

/-- The controller-state invariant of spec §3 as claim C1 states it:
`current_temp_low ≤ current_temp_high` and both active setpoints lie
within `[min_temp, max_temp]`. -/
def setpointInvariant (c : Climate) : Prop :=
  c.state.currentTempLow ≤ c.state.currentTempHigh ∧
  c.minTemp ≤ c.state.currentTempLow ∧ c.state.currentTempLow ≤ c.maxTemp ∧
  c.minTemp ≤ c.state.currentTempHigh ∧ c.state.currentTempHigh ≤ c.maxTemp

/-- The one-sided bounds the handlers actually enforce: every high
setpoint (current and both storage slots) is at most `max_temp`, and every
low setpoint is at least `min_temp`. -/
def oneSidedBounds (c : Climate) : Prop :=
  c.state.currentTempHigh ≤ c.maxTemp ∧ c.state.storageTempHigh ≤ c.maxTemp ∧
  c.state.storageAwayTempHigh ≤ c.maxTemp ∧
  c.minTemp ≤ c.state.currentTempLow ∧ c.minTemp ≤ c.state.storageTempLow ∧
  c.minTemp ≤ c.state.storageAwayTempLow

/-- The implicit invariant of claim C10: the active setpoints equal the
storage pair selected by the away flag. -/
def mirrorsStorage (s : ClimateState) : Prop :=
  (s.awayMode = true → s.currentTempHigh = s.storageAwayTempHigh ∧
      s.currentTempLow = s.storageAwayTempLow) ∧
  (s.awayMode = false → s.currentTempHigh = s.storageTempHigh ∧
      s.currentTempLow = s.storageTempLow)

instance (c : Climate) : Decidable (setpointInvariant c) := by
  unfold setpointInvariant; infer_instance

instance (c : Climate) : Decidable (oneSidedBounds c) := by
  unfold oneSidedBounds; infer_instance

instance (s : ClimateState) : Decidable (mirrorsStorage s) := by
  unfold mirrorsStorage; infer_instance

/-- A concrete controller used in counterexamples and witnesses: the
constructor bounds (`min_temp = 16`, `max_temp = 28`), consistent
setpoints, away mode off, current mode `"heat"`, modes `{"off", "heat"}`. -/
def cHome : Climate :=
  { state := { currentTempHigh := 22
               currentTempLow := 20
               awayMode := false
               storageAwayTempHigh := 17
               storageAwayTempLow := 16
               storageTempHigh := 22
               storageTempLow := 20
               currentMode := "heat"
               currentAction := "heating" }
    eventSet := false
    minTemp := 16
    maxTemp := 28
    modes := ["off", "heat"] }

/-- `cHome` with away mode active and the away storage pair selected. -/
def cAway : Climate :=
  { cHome with state := { cHome.state with
                          awayMode := true
                          currentTempHigh := 17
                          currentTempLow := 16 } }

/-! ## Helper lemmas -/

/-- Every key the mode-filtering loop adds comes with a successful
instantiation: a name whose import/instantiation fails never becomes a key
of `self._modes`. -/
theorem modesLoopF_mem_inst (inst : String → Bool) (fuel : Nat) :
    ∀ idx l acc m, m ∈ (modesLoopF inst fuel idx l acc).2 →
      m ∈ acc ∨ inst m = true := by
  induction fuel with
  | zero => intro idx l acc m hm; exact Or.inl hm
  | succ n ih =>
    intro idx l acc m hm
    simp only [modesLoopF] at hm
    split at hm
    · split at hm
      · split at hm
        · rcases ih _ _ _ _ hm with h | h
          · rcases List.mem_append.mp h with h | h
            · exact Or.inl h
            · rcases List.mem_singleton.mp h with rfl
              exact Or.inr (by assumption)
          · exact Or.inr h
        · exact ih _ _ _ _ hm
      · exact ih _ _ _ _ hm
    · exact Or.inl hm

/-- If the recovered flag is never raised, the recovery poll performs every
one of its sleeps. -/
theorem recoveryLoop_all_false (doneAt : Nat → Bool)
    (h : ∀ k, doneAt k = false) : ∀ k n, recoveryLoop doneAt k n = n := by
  intro k n
  induction n generalizing k with
  | zero => rfl
  | succ n ih => simp [recoveryLoop, h, ih, Nat.add_comm]

/-! ## Claims -/

/-- C1 counterexample: from a state satisfying the claimed invariant
(`low ≤ high`, both in `[16, 28]`), `changeTempHigh` accepts the value 10
(it only checks `msg > max_temp`) and the resulting state violates the
invariant: `current_temp_high = 10` is below both `current_temp_low = 20`
and `min_temp = 16`. -/
theorem changeTempHigh_breaks_setpoint_invariant :
    setpointInvariant cHome ∧
    (changeTempHigh cHome 10).outcome = .ret true ∧
    ¬ setpointInvariant (changeTempHigh cHome 10).self := by
  decide

/-- C1 (amended): every command handler — accepted or rejected — preserves
the one-sided bounds invariant (each high setpoint ≤ `max_temp`, each low
setpoint ≥ `min_temp`); the claimed two-sided invariant with
`current_temp_low ≤ current_temp_high` is not preserved. -/
theorem handlers_preserve_one_sided_bounds (c : Climate)
    (h : oneSidedBounds c) :
    (∀ v, oneSidedBounds (changeTempHigh c v).self) ∧
    (∀ v, oneSidedBounds (changeTempLow c v).self) ∧
    (∀ p, oneSidedBounds (changeAwayMode c p).self) ∧
    (∀ d a m, oneSidedBounds (changeMode c d a m).self) := by
  obtain ⟨h1, h2, h3, h4, h5, h6⟩ := h
  refine ⟨?_, ?_, ?_, ?_⟩
  · intro v
    simp only [changeTempHigh, oneSidedBounds]
    split_ifs with hv hb <;>
      refine ⟨?_, ?_, ?_, ?_, ?_, ?_⟩ <;> simp_all
  · intro v
    simp only [changeTempLow, oneSidedBounds]
    split_ifs with hv hb <;>
      refine ⟨?_, ?_, ?_, ?_, ?_, ?_⟩ <;> simp_all
  · intro p
    cases p <;> simp only [changeAwayMode, oneSidedBounds] <;>
      (try split_ifs) <;>
      refine ⟨?_, ?_, ?_, ?_, ?_, ?_⟩ <;> simp_all
  · intro d a m
    simp only [changeMode, oneSidedBounds]
    split_ifs <;> refine ⟨?_, ?_, ?_, ?_, ?_, ?_⟩ <;> simp_all

/-- C1 witness for the amended invariant preservation. -/
theorem handlers_preserve_one_sided_bounds_witness :
    oneSidedBounds cHome ∧ oneSidedBounds (changeTempHigh cHome 10).self :=
  ⟨by decide, (handlers_preserve_one_sided_bounds cHome (by decide)).1 10⟩

/-- C2: when the current mode's `deactivate` succeeds and the target
mode's `activate` reports failure, `changeMode` sets `current_mode` to
`"off"` — and then raises `TypeError`, because line 300 calls
`self._modes[MODE_OFF].activate()` without the `climate` argument that
`BaseMode.activate(self, climate)` requires.  The event is never set and
the handler does not return: the fall-back is left half-applied. -/
theorem changeMode_activation_failure_raises (c : Climate)
    (d a : String → Bool) (m : String) (h1 : m ∈ c.modes)
    (h2 : m ≠ c.state.currentMode) (h3 : d c.state.currentMode = true)
    (h4 : a m = false) :
    changeMode c d a m =
      { self := { c with state := { c.state with currentMode := MODE_OFF } }
        outcome := .exn .typeError } := by
  simp [changeMode, h1, h2, h3, h4]

/-- C2 witness: concrete run of the failing activation path. -/
theorem changeMode_activation_failure_raises_witness :
    changeMode cHome (fun _ => true) (fun _ => false) "off" =
      { self :=
          { cHome with state := { cHome.state with currentMode := MODE_OFF } }
        outcome := .exn .typeError } :=
  changeMode_activation_failure_raises cHome (fun _ => true) (fun _ => false)
    "off" (by decide) (by decide) rfl rfl

/-- C5: every command error raises without touching the controller: an
over-range `changeTempHigh`, an under-range `changeTempLow`, a
`changeMode` to an unconfigured mode and a `changeAwayMode` with an
unrecognized payload each leave the whole object — state and event flag —
exactly as it was. -/
theorem command_errors_leave_state_unchanged (c : Climate) (v w : ℚ)
    (m : String) (d a : String → Bool) :
    (v > c.maxTemp →
      changeTempHigh c v = { self := c, outcome := .exn .valueError }) ∧
    (w < c.minTemp →
      changeTempLow c w = { self := c, outcome := .exn .valueError }) ∧
    (m ∉ c.modes →
      changeMode c d a m = { self := c, outcome := .exn .attributeError }) ∧
    changeAwayMode c .other = { self := c, outcome := .exn .typeError } := by
  refine ⟨fun h => ?_, fun h => ?_, fun h => ?_, ?_⟩
  · simp [changeTempHigh, h]
  · simp [changeTempLow, h]
  · simp [changeMode, h]
  · simp [changeAwayMode]

/-- C5 witness: `max_temp = 28` rejects 30, `min_temp = 16` rejects 10,
`"cool"` is not configured, and an unrecognized away payload raises. -/
theorem command_errors_leave_state_unchanged_witness :
    changeTempHigh cHome 30 = { self := cHome, outcome := .exn .valueError } ∧
    changeTempLow cHome 10 = { self := cHome, outcome := .exn .valueError } ∧
    changeMode cHome (fun _ => true) (fun _ => true) "cool" =
      { self := cHome, outcome := .exn .attributeError } ∧
    changeAwayMode cHome .other =
      { self := cHome, outcome := .exn .typeError } := by
  obtain ⟨h1, h2, h3, h4⟩ :=
    command_errors_leave_state_unchanged cHome 30 10 "cool"
      (fun _ => true) (fun _ => true)
  exact ⟨h1 (by decide), h2 (by decide), h3 (by decide), h4⟩

/-- C9: `changeAwayMode` is idempotent on the away flag — a recognized
payload matching the current away state returns `False` immediately, with
the object (state and event flag) unchanged. -/
theorem changeAwayMode_idempotent (c : Climate) :
    (c.state.awayMode = true →
      changeAwayMode c .on = { self := c, outcome := .ret false }) ∧
    (c.state.awayMode = false →
      changeAwayMode c .off = { self := c, outcome := .ret false }) := by
  constructor <;> intro h <;> simp [changeAwayMode, h]

/-- C9 witness: repeated `on` while away, and repeated `off` while home. -/
theorem changeAwayMode_idempotent_witness :
    changeAwayMode cAway .on = { self := cAway, outcome := .ret false } ∧
    changeAwayMode cHome .off = { self := cHome, outcome := .ret false } :=
  ⟨(changeAwayMode_idempotent cAway).1 rfl,
   (changeAwayMode_idempotent cHome).2 rfl⟩

/-- C3: `modes.remove(mode)` inside `for mode in modes` shifts the list
under the iterator, so the element after a removed unsupported name is
never visited.  With input `["cool", "heat"]` (after the `"off"` append:
`["cool", "heat", "off"]`) and every instantiation succeeding, removing
`"cool"` makes the loop skip `"heat"`: the supported input name `"heat"`
never becomes a key of `self._modes` (and is not even dropped from the
list), refuting the claim that every supported input name is configured. -/
theorem init_skips_supported_mode_after_removal :
    "heat" ∈ ["cool", "heat"] ∧ "heat" ∈ MODES_SUPPORTED ∧
    climateInitModes ["cool", "heat"] (fun _ => true) =
      (["heat", "off"], ["off"]) ∧
    "heat" ∉ (climateInitModes ["cool", "heat"] (fun _ => true)).2 := by
  decide

/-- C4 counterexample: when the instantiation of `"off"` fails (e.g. an
ImportError), the loop logs and continues, but line 166 then evaluates
`str(self._modes["off"])` and construction dies with `KeyError` — an
instantiation failure of `"off"` is fatal, refuting "never fatal". -/
theorem climateInit_off_failure_fatal :
    climateInit ["off"] (fun _ => false) = .exn .keyError := by decide

/-- C4 (amended): an import/instantiation failure of a mode is logged and
the mode skipped without raising — the failed name is never a configured
key — and this is non-fatal exactly as long as `"off"` still ends up
instantiated; when the loop leaves `"off"` uninstantiated, construction
raises `KeyError` at the state-dictionary line. -/
theorem climateInit_nonfatal_iff_off_configured (modes : List String)
    (inst : String → Bool) :
    (∀ m, inst m = false → m ∉ (climateInitModes modes inst).2) ∧
    ("off" ∈ (climateInitModes modes inst).2 →
      climateInit modes inst = .ok (climateInitModes modes inst).2 defaultState) ∧
    ("off" ∉ (climateInitModes modes inst).2 →
      climateInit modes inst = .exn .keyError) := by
  refine ⟨?_, ?_, ?_⟩
  · intro m hm hmem
    rcases modesLoopF_mem_inst inst _ _ _ _ _ hmem with h | h
    · simp at h
    · rw [hm] at h; exact Bool.false_ne_true h
  · intro h
    simp [climateInit, h]
  · intro h
    simp [climateInit, h]

/-- C4 witness: with only `"heat"` failing, construction still succeeds
and `"heat"` is skipped. -/
theorem climateInit_nonfatal_iff_off_configured_witness :
    "heat" ∉ (climateInitModes ["off", "heat"] (fun m => m = "off")).2 ∧
    climateInit ["off", "heat"] (fun m => m = "off") =
      .ok (climateInitModes ["off", "heat"] (fun m => m = "off")).2
        defaultState := by
  obtain ⟨h1, h2, _⟩ :=
    climateInit_nonfatal_iff_off_configured ["off", "heat"] (fun m => m = "off")
  exact ⟨h1 "heat" (by decide), h2 (by decide)⟩

/-- C6: with no retained state message during the window, the recovery
poll of `_init_network` sleeps all 16 intervals of 250 ms (4000 ms
total), unsubscribes from the state topic, marks recovery complete with
the state untouched at the constructor defaults (`current_mode = "off"`),
and publishes the current low and high setpoints as retained messages. -/
theorem no_snapshot_recovery (doneAt : Nat → Bool)
    (h : ∀ k, doneAt k = false) :
    initNetwork doneAt defaultState =
      { sleeps := 16
        unsubscribed := true
        networkDone := true
        published := [("temp_low", 20, true), ("temp_high", 22, true)]
        state := defaultState } ∧
    250 * 16 = 4000 ∧ defaultState.currentMode = "off" := by
  refine ⟨?_, rfl, rfl⟩
  simp [initNetwork, recoveryLoop_all_false doneAt h, h, defaultState]

/-- C6 witness: the no-arrival schedule. -/
theorem no_snapshot_recovery_witness :
    initNetwork (fun _ => false) defaultState =
      { sleeps := 16
        unsubscribed := true
        networkDone := true
        published := [("temp_low", 20, true), ("temp_high", 22, true)]
        state := defaultState } ∧
    250 * 16 = 4000 ∧ defaultState.currentMode = "off" :=
  no_snapshot_recovery (fun _ => false) (fun _ => rfl)

/-- C7 counterexample: a `changeTempHigh` arriving at a suspension point
inside the evaluation-and-publish pass sets the event, yet after the pass
completes, `self.event.clear()` (line 235) runs unconditionally and the
signal is no longer set — the claim that it survives the clear fails. -/
theorem signal_set_during_pass_is_cleared :
    (changeTempHigh cHome 21).self.eventSet = true ∧
    (loopPass cHome [fun s => (changeTempHigh s 21).self]).eventSet = false := by
  decide

/-- C7 (amended): the clear at the end of the pass wipes the signal no
matter what ran during the pass: after every evaluation-and-publish pass
the event is unset.  The setpoint mutation performed by a handler during
the pass does persist in the state — only the out-of-cycle wake-up is
lost (until the next interval expiry). -/
theorem pass_clear_wipes_mid_pass_set (c : Climate)
    (during : List (Climate → Climate)) (v : ℚ) (h : ¬ v > c.maxTemp) :
    (loopPass c during).eventSet = false ∧
    (loopPass c [fun s => (changeTempHigh s v).self]).state.currentTempHigh
      = v := by
  refine ⟨rfl, ?_⟩
  simp only [loopPass, List.foldl, changeTempHigh, if_neg h]
  split <;> rfl

/-- C7 witness for the amended statement. -/
theorem pass_clear_wipes_mid_pass_set_witness :
    (loopPass cHome [fun s => (changeTempHigh s 21).self]).eventSet = false ∧
    (loopPass cHome
        [fun s => (changeTempHigh s 21).self]).state.currentTempHigh = 21 :=
  pass_clear_wipes_mid_pass_set cHome [fun s => (changeTempHigh s 21).self] 21
    (by decide)

/-- C8: every cycle of `Battery._loop` releases the previously armed
notifications first — but then binds `voltage = self._read()` without
`await` (lines 116/119), so `voltage` is a coroutine object and the
comparison `voltage > self._voltage_max` raises `TypeError`: the cycle
always aborts with the sinks released and never armed, for every sample
and every sink registration. -/
theorem battery_cycle_raises_typeerror (b : Battery) (sample : ℚ) :
    (batteryCycle b sample).raised = some .typeError ∧
    (batteryCycle b sample).battery.eventHigh = b.eventHigh.map (fun _ => none) ∧
    (batteryCycle b sample).battery.eventLow = b.eventLow.map (fun _ => none) := by
  refine ⟨rfl, rfl, rfl⟩

/-- C10: the active setpoints mirror the storage pair selected by the away
flag: the invariant holds for the constructor state and is preserved by
all four command handlers, on success and failure paths alike. -/
theorem active_setpoints_mirror_storage (c : Climate)
    (h : mirrorsStorage c.state) :
    mirrorsStorage defaultState ∧
    (∀ v, mirrorsStorage (changeTempHigh c v).self.state) ∧
    (∀ v, mirrorsStorage (changeTempLow c v).self.state) ∧
    (∀ p, mirrorsStorage (changeAwayMode c p).self.state) ∧
    (∀ d a m, mirrorsStorage (changeMode c d a m).self.state) := by
  obtain ⟨hOn, hOff⟩ := h
  refine ⟨by decide, ?_, ?_, ?_, ?_⟩
  · intro v
    simp only [changeTempHigh, mirrorsStorage]
    split_ifs with hv hb <;> constructor <;> intro ha <;> simp_all
  · intro v
    simp only [changeTempLow, mirrorsStorage]
    split_ifs with hv hb <;> constructor <;> intro ha <;> simp_all
  · intro p
    cases p <;> simp only [changeAwayMode, mirrorsStorage] <;>
      (try split_ifs) <;> constructor <;> intro ha <;> simp_all
  · intro d a m
    simp only [changeMode, mirrorsStorage]
    split_ifs <;> constructor <;> intro ha <;> simp_all

/-- C10 witness: the invariant holds for `cHome` and survives an away
toggle. -/
theorem active_setpoints_mirror_storage_witness :
    mirrorsStorage cHome.state ∧
    mirrorsStorage (changeAwayMode cHome .on).self.state :=
  ⟨by decide,
   (active_setpoints_mirror_storage cHome (by decide)).2.2.2.1 .on⟩

end Pysmartnode
